import Mathlib

/-!
Shallow embedding of the field-level generation-strategy engine of
`rand_derive2` (`src/gen.rs`): the type classifier (`extract_type`,
`extract_type_path`), the strategy resolver (`generated_values`), the scalar
strategy (`generate_value`), the capability delegator
(`add_to_trait_methods`) and the field traversals.

Emitted `quote!` token streams are represented by the inductive `Frag`, one
constructor per distinct fragment shape the source can emit.  Compile-time
aborts of the derivation (Rust panics inside the proc macro) are represented
by `Except GenError`.
-/

namespace RandDerive

/-- Modelled from the spec: the Directive Model's closed set of per-field
customization directives (the parser module is an external collaborator,
outside the generation-strategy source).  `FixedValue` carries its literal,
rendered as its token text. -/
inductive Customize where
  | Panic
  | Custom
  | AlwaysNone
  | AlwaysSome
  | Empty
  | Default
  | FixedValue (lit : String)
  deriving DecidableEq

/-- Modelled from the spec: the Directive Model query
`has(directive_kind) -> bool`, realized as membership in the normalized
directive list. -/
def has_customize (customizes : List Customize) (c : Customize) : Bool :=
  customizes.contains c

/-- Modelled from the spec: the Directive Model query
`fixed_value() -> Option<literal>`, returning the literal of the first
FixedValue directive in the list, if any. -/
def fixed_value (customizes : List Customize) : Option String :=
  customizes.findSome? fun c =>
    match c with
    | Customize.FixedValue lit => some lit
    | _ => none

/-- A syn `TypePath`, represented by the data `extract_type_path` reads off
it: the whitespace-stripped token rendering (what
`to_token_stream().to_string().split_whitespace().collect()` produces) and
the identifier of each path segment, in order. -/
structure RsTypePath where
  rendered : String
  segments : List String
  deriving DecidableEq

/-- The fragment of syn's `Type` tree that the engine distinguishes: named
path types, reference types (with their referent), and every other type form
(carried as a textual description of the unsupported form, e.g. a tuple or
slice type). -/
inductive RsType where
  | path (tp : RsTypePath)
  | reference (elem : RsType)
  | other (descr : String)
  deriving DecidableEq

/-- Compile-time aborts of the generation pass: `unsupportedType` is the
explicit abort of `extract_type` on a non-path, non-reference type;
`unwrapFailure` is an abort of an `unwrap()` on `None` or an out-of-range
string slice (the Option inner-type extraction). -/
inductive GenError where
  | unsupportedType (descr : String)
  | unwrapFailure (context : String)
  deriving DecidableEq

/-- One emitted code fragment, one constructor per distinct `quote!` shape in
`src/gen.rs`:
* `panicWith msg` — the abort fragment of the Panic directive;
* `customCall t tr m` — the qualified call fragment
  `<t as tr>::m(rng)` emitted for the Custom directive;
* `noneFrag` / `someFrag v` / `randomOption v` — the three Option-shape
  fragments (`None`, `Some(v)`, and the two-armed runtime coin flip
  producing `Some(v)` or `None`);
* `emptyVec` / `vecOne v` — the two Vec-shape fragments;
* `stringifyToString lit` / `stringifyLit lit` / `litFrag lit` — the three
  FixedValue renderings (owned textual, borrowed textual, bare literal);
* `defaultDefault` — the zero-value fragment of the Default directive;
* `alphanumeric10` — the 10-character random alphanumeric textual fragment;
* `uuidNewV4` — the fresh-identifier fragment;
* `rngGen` — the opaque generic randomization fallback;
* `prefixed name v` — the field emitter's wrapping of a value fragment with
  an optional field-name prefix. -/
inductive Frag where
  | panicWith (msg : String)
  | customCall (typeIdent traitIdent methodIdent : String)
  | noneFrag
  | someFrag (inner : Frag)
  | randomOption (inner : Frag)
  | emptyVec
  | vecOne (inner : Frag)
  | stringifyToString (lit : String)
  | stringifyLit (lit : String)
  | litFrag (lit : String)
  | defaultDefault
  | alphanumeric10
  | uuidNewV4
  | rngGen
  | prefixed (fieldName : Option String) (value : Frag)
  deriving DecidableEq

/-- The trait-method signature token stream stored in the trait-methods map.
Its rendered form is
`fn <methodName><R: rand::Rng + ?Sized>(rng: &mut R) -> <returnType>;`; only
the method name and the return type vary between entries, the
source-of-randomness parameter is fixed by the template. -/
structure MethodSig where
  methodName : String
  returnType : RsType
  deriving DecidableEq

/-- `pub type TraitMethods = HashMap<String, TokenStream>` — modelled as an
association list with unique keys (the construction below only ever inserts
with replace-on-collision, preserving uniqueness, like `HashMap`). -/
abbrev TraitMethods := List (String × MethodSig)

/-- `HashMap::insert`: replace the value under an existing key, otherwise add
a new entry. -/
def tmInsert : TraitMethods → String → MethodSig → TraitMethods
  | [], k, v => [(k, v)]
  | (k0, v0) :: t, k, v =>
    if k0 == k then (k, v) :: t else (k0, v0) :: tmInsert t k v

/-- `HashMap::get`: look up the entry under a key. -/
def tmLookup : TraitMethods → String → Option MethodSig
  | [], _ => none
  | (k0, v0) :: t, k => if k0 == k then some v0 else tmLookup t k

/-- Number of entries stored under a key. -/
def tmCountKey : TraitMethods → String → Nat
  | [], _ => 0
  | (k0, _) :: t, k => (if k0 == k then 1 else 0) + tmCountKey t k

/-- `const TRAIT_NAME: &str = "TestDataProvider"`. -/
def TRAIT_NAME : String := "TestDataProvider"

/-- `fn trait_name(name: &Ident) -> Ident`, rendering
`format_ident!` of TRAIT_NAME, then `For`, then the type name. -/
def trait_name (name : String) : String :=
  TRAIT_NAME ++ "For" ++ name

/-- Rust `str::to_lowercase` on (ASCII) strings, character by character. -/
def strToLower (s : String) : String :=
  String.mk (s.toList.map Char.toLower)

/-- The deterministic capability method name (the `generate_ty_name` binding
inside `add_to_trait_methods`): `generate_<field>` for a named field,
`generate_random_<lowercased type-head name>` for a positional field. -/
def generate_ty_name (field_ident : Option String) (ty_str : String) : String :=
  match field_ident with
  | none => "generate_random_" ++ strToLower ty_str
  | some f => "generate_" ++ f

/-- `fn extract_type_path(tp: &TypePath) -> (String, String)`: the rendered
full type text and the identifier of the last path segment
(`tp.path.segments.last().unwrap()` — the unwrap can only abort on an empty
segment list, which syn never produces). -/
def extract_type_path (tp : RsTypePath) : Except GenError (String × String) :=
  match tp.segments.getLast? with
  | none => Except.error (GenError.unwrapFailure "segments last")
  | some seg => Except.ok (tp.rendered, seg)

/-- `fn extract_type(t: &Type) -> (String, String)`: path types go to
`extract_type_path`, reference types recurse into their referent, every
other type form aborts with the unsupported-type diagnostic. -/
def extract_type : RsType → Except GenError (String × String)
  | RsType.path tp => extract_type_path tp
  | RsType.reference r => extract_type r
  | RsType.other d => Except.error (GenError.unsupportedType d)

/-- Rust `str::find` for a needle, over the character list of an (ASCII)
string: the first index at which the needle occurs. -/
def findSubFrom (needle : List Char) : List Char → Nat → Option Nat
  | [], i => if needle.isPrefixOf ([] : List Char) then some i else none
  | c :: rest, i =>
    if needle.isPrefixOf (c :: rest) then some i
    else findSubFrom needle rest (i + 1)

/-- Rust `str::find(needle)` on (ASCII) strings. -/
def strFind (hay needle : String) : Option Nat :=
  findSubFrom needle.toList hay.toList 0

/-- Rust `str::rfind(char)` helper: last index at which the character occurs,
counting from offset `i`. -/
def rfindCharFrom (c : Char) : List Char → Nat → Option Nat
  | [], _ => none
  | x :: rest, i =>
    match rfindCharFrom c rest (i + 1) with
    | some j => some j
    | none => if x == c then some i else none

/-- Rust `str::rfind(char)` on (ASCII) strings. -/
def strRFindChar (hay : String) (c : Char) : Option Nat :=
  rfindCharFrom c hay.toList 0

/-- Rust slice `s[a..b]` by (ASCII) character index. -/
def strSlice (s : String) (a b : Nat) : String :=
  String.mk ((s.toList.drop a).take (b - a))

/-- The inline Option inner-type extraction of `generated_values`:
`&full_type[full_type.find("Option<").unwrap() + 7..full_type.rfind('>').unwrap()]`.
`none` stands for the compile-time aborts: either `unwrap()` failing, or the
slice range being reversed. -/
def option_inner (full_type : String) : Option String :=
  match strFind full_type "Option<", strRFindChar full_type '>' with
  | some i, some j =>
    if i + 7 ≤ j then some (strSlice full_type (i + 7) j) else none
  | _, _ => none

/-- `fn generate_value(ty_str: &str, customizes: &[Customize]) -> TokenStream`
(the Scalar Strategy).  The source's early returns are flattened into one
match: a present fixed value is rendered first (owned textual for `String`,
borrowed textual for `str`, bare literal otherwise); only with no fixed
value are the Default directive, the textual strategy, the identifier
strategy and the opaque fallback consulted, in that order. -/
def generate_value (ty_str : String) (customizes : List Customize) : Frag :=
  match fixed_value customizes with
  | some v =>
    if ty_str == "String" then Frag.stringifyToString v
    else if ty_str == "str" then Frag.stringifyLit v
    else Frag.litFrag v
  | none =>
    if has_customize customizes Customize.Default then Frag.defaultDefault
    else if ty_str == "String" then Frag.alphanumeric10
    else if ty_str == "Uuid" then Frag.uuidNewV4
    else Frag.rngGen

/-- `fn add_to_trait_methods(...) -> TokenStream` (the Capability
Delegator): derive the deterministic method name, insert its signature
(returning the field's type) into the trait-methods map, and return the
qualified call fragment `<type_ident as trait_name>::name(rng)` together
with the updated map (the source mutates the map in place). -/
def add_to_trait_methods (type_ident : String) (field_ident : Option String)
    (ty : RsType) (ty_str : String) (trait_methods : TraitMethods) :
    Frag × TraitMethods :=
  let tn := trait_name type_ident
  let nm := generate_ty_name field_ident ty_str
  (Frag.customCall type_ident tn nm,
   tmInsert trait_methods nm (MethodSig.mk nm ty))

/-- `fn generated_values(...) -> TokenStream` (the Strategy Resolver plus
the Field Emitter): classify the field's type, then resolve the directive
list in source order — Panic, Custom, Option shape, Vec shape, scalar — and
wrap the value fragment with the optional field-name prefix.  The map is
threaded explicitly in place of the source's `&mut TraitMethods`; Rust
panics become `Except.error`. -/
def generated_values (type_ident : String) (field_ident : Option String)
    (ty : RsType) (customizes : List Customize)
    (trait_methods : TraitMethods) : Except GenError (Frag × TraitMethods) :=
  match extract_type ty with
  | Except.error e => Except.error e
  | Except.ok (full_type, to_string) =>
    let ts_value := generate_value to_string customizes
    if has_customize customizes Customize.Panic then
      Except.ok (Frag.prefixed field_ident
        (Frag.panicWith "This property can not be generated"), trait_methods)
    else if has_customize customizes Customize.Custom then
      let r := add_to_trait_methods type_ident field_ident ty to_string
        trait_methods
      Except.ok (Frag.prefixed field_ident r.1, r.2)
    else if to_string == "Option" then
      match option_inner full_type with
      | none => Except.error (GenError.unwrapFailure "Option inner extraction")
      | some inner =>
        let ts_value := generate_value inner customizes
        if has_customize customizes Customize.AlwaysNone then
          Except.ok (Frag.prefixed field_ident Frag.noneFrag, trait_methods)
        else if has_customize customizes Customize.AlwaysSome then
          Except.ok (Frag.prefixed field_ident (Frag.someFrag ts_value),
            trait_methods)
        else
          Except.ok (Frag.prefixed field_ident (Frag.randomOption ts_value),
            trait_methods)
    else if to_string == "Vec" then
      if has_customize customizes Customize.Empty then
        Except.ok (Frag.prefixed field_ident Frag.emptyVec, trait_methods)
      else
        Except.ok (Frag.prefixed field_ident (Frag.vecOne ts_value),
          trait_methods)
    else
      Except.ok (Frag.prefixed field_ident ts_value, trait_methods)

/-- One named field as the traversals consume it: its name, its type, and
its normalized directive list (standing for `Field` with its attributes
already put through the Directive Model). -/
abbrev NamedField := String × RsType × List Customize

/-- `fn generated_values_for_named_fields`: fold `generated_values` over the
named fields in order, threading the trait-methods map; a compile-time abort
on any field aborts the whole traversal. -/
def generated_values_for_named_fields (type_ident : String) :
    List NamedField → TraitMethods → Except GenError (List Frag × TraitMethods)
  | [], map => Except.ok ([], map)
  | (f, ty, cs) :: rest, map =>
    match generated_values type_ident (some f) ty cs map with
    | Except.error e => Except.error e
    | Except.ok (frag, map1) =>
      match generated_values_for_named_fields type_ident rest map1 with
      | Except.error e => Except.error e
      | Except.ok (frags, map2) => Except.ok (frag :: frags, map2)

end RandDerive

namespace RandDerive

/-! ### Helper lemmas about the trait-methods map -/

theorem tmLookup_tmInsert_self (m : TraitMethods) (k : String) (v : MethodSig) :
    tmLookup (tmInsert m k v) k = some v := by
  induction m with
  | nil => simp [tmInsert, tmLookup]
  | cons p t ih =>
    obtain ⟨k0, v0⟩ := p
    by_cases h : (k0 == k) = true
    · simp [tmInsert, tmLookup, h]
    · simp only [Bool.not_eq_true] at h
      simp [tmInsert, tmLookup, h, ih]

theorem tmCountKey_tmInsert_self (m : TraitMethods) (k : String) (v : MethodSig)
    (h : tmCountKey m k ≤ 1) : tmCountKey (tmInsert m k v) k = 1 := by
  induction m with
  | nil => simp [tmInsert, tmCountKey]
  | cons p t ih =>
    obtain ⟨k0, v0⟩ := p
    by_cases hk : (k0 == k) = true
    · have h1 : tmCountKey ((k0, v0) :: t) k = 1 + tmCountKey t k := by
        simp [tmCountKey, hk]
      rw [h1] at h
      have ht : tmCountKey t k = 0 := by omega
      have h2 : tmInsert ((k0, v0) :: t) k v = (k, v) :: t := by
        simp [tmInsert, hk]
      rw [h2]
      simp [tmCountKey, ht]
    · simp only [Bool.not_eq_true] at hk
      have h1 : tmCountKey ((k0, v0) :: t) k = tmCountKey t k := by
        simp [tmCountKey, hk]
      rw [h1] at h
      have h2 : tmInsert ((k0, v0) :: t) k v = (k0, v0) :: tmInsert t k v := by
        simp [tmInsert, hk]
      rw [h2]
      simp [tmCountKey, hk, ih h]

end RandDerive

namespace RandDerive

/-! ### Claim theorems -/

/-- Claim C1: for every field whose directive list contains Panic, the
resolver emits the unconditional abort fragment carrying the fixed message
"This property can not be generated", regardless of the field's type shape
(any type the classifier accepts) and ignoring every other directive
present. -/
theorem C1_panic_overrides (ti : String) (fi : Option String) (ty : RsType)
    (cs : List Customize) (tm : TraitMethods) (ft : String × String)
    (hok : extract_type ty = Except.ok ft)
    (hp : has_customize cs Customize.Panic = true) :
    generated_values ti fi ty cs tm =
      Except.ok (Frag.prefixed fi
        (Frag.panicWith "This property can not be generated"), tm) := by
  obtain ⟨full, hd⟩ := ft
  simp [generated_values, hok, hp]

theorem C1_panic_overrides_witness :
    generated_values "T" (some "x") (RsType.path ⟨"Vec<String>", ["Vec"]⟩)
      [Customize.Panic, Customize.AlwaysSome, Customize.Empty,
       Customize.Default, Customize.FixedValue "v"] [] =
      Except.ok (Frag.prefixed (some "x")
        (Frag.panicWith "This property can not be generated"), []) :=
  C1_panic_overrides "T" (some "x") (RsType.path ⟨"Vec<String>", ["Vec"]⟩)
    [Customize.Panic, Customize.AlwaysSome, Customize.Empty,
     Customize.Default, Customize.FixedValue "v"] []
    ("Vec<String>", "Vec") rfl rfl

/-- Claim C2 counterexample: for the field `tags: Vec<String>` with no
directives, the emitted element fragment is the opaque fallback `rng.gen()`
(the scalar strategy applied to the head name `Vec`), not the
textual-strategy fragment for the inner type `String` — refuting the claim
that the element is the recursively resolved inner value fragment. -/
theorem C2_cex :
    generated_values "T" (some "tags")
      (RsType.path ⟨"Vec<String>", ["Vec"]⟩) [] [] =
      Except.ok (Frag.prefixed (some "tags") (Frag.vecOne Frag.rngGen), [])
    ∧ Frag.rngGen ≠ Frag.alphanumeric10 :=
  ⟨rfl, by decide⟩

/-- Claim C2 (amended): for every field of Vec shape without Empty, Panic or
Custom, the emitted fragment is a single-element sequence whose element is
the scalar strategy applied to the outer head name `Vec` itself — not a
recursively resolved fragment for the inner element type; with no FixedValue
and no Default directive that element is the opaque fallback `rng.gen()`. -/
theorem C2_vec_element (ti : String) (fi : Option String) (tp : RsTypePath)
    (cs : List Customize) (tm : TraitMethods)
    (hseg : tp.segments.getLast? = some "Vec")
    (hp : has_customize cs Customize.Panic = false)
    (hc : has_customize cs Customize.Custom = false)
    (he : has_customize cs Customize.Empty = false) :
    generated_values ti fi (RsType.path tp) cs tm =
      Except.ok (Frag.prefixed fi (Frag.vecOne (generate_value "Vec" cs)), tm)
    ∧ (fixed_value cs = none → has_customize cs Customize.Default = false →
        generate_value "Vec" cs = Frag.rngGen) := by
  have h1 : (("Vec" : String) == "Option") = false := by decide
  have h2 : (("Vec" : String) == "String") = false := by decide
  have h3 : (("Vec" : String) == "Uuid") = false := by decide
  constructor
  · simp [generated_values, extract_type, extract_type_path, hseg, hp, hc,
      he, h1]
  · intro hfv hdef
    simp [generate_value, hfv, hdef, h2, h3]

theorem C2_vec_element_witness :
    (generated_values "T" (some "tags")
        (RsType.path ⟨"Vec<String>", ["Vec"]⟩) [] [] =
      Except.ok (Frag.prefixed (some "tags")
        (Frag.vecOne (generate_value "Vec" [])), [])
    ∧ (fixed_value [] = none → has_customize [] Customize.Default = false →
        generate_value "Vec" [] = Frag.rngGen)) :=
  C2_vec_element "T" (some "tags") ⟨"Vec<String>", ["Vec"]⟩ [] []
    rfl rfl rfl rfl

/-- Claim C3 counterexample: for head type name `str` with no directives at
all (so no FixedValue, no Default, no Panic, no Custom), the scalar strategy
emits the opaque fallback `rng.gen()`, not the 10-character random
alphanumeric textual fragment — refuting the claim for the `str` half of
"Textual (String or str)". -/
theorem C3_cex :
    generate_value "str" [] = Frag.rngGen
    ∧ Frag.rngGen ≠ Frag.alphanumeric10 :=
  ⟨rfl, by decide⟩

/-- Claim C3 (amended): only the head type name `String` receives the
fixed-length 10-character random alphanumeric textual fragment (here stated
for a whole field resolution without FixedValue, Default, Panic or Custom);
the head type name `str` without a FixedValue directive falls through to the
opaque fallback `rng.gen()`. -/
theorem C3_string_only (ti : String) (fi : Option String) (tp : RsTypePath)
    (cs : List Customize) (tm : TraitMethods)
    (hseg : tp.segments.getLast? = some "String")
    (hp : has_customize cs Customize.Panic = false)
    (hc : has_customize cs Customize.Custom = false)
    (hfv : fixed_value cs = none)
    (hdef : has_customize cs Customize.Default = false) :
    generated_values ti fi (RsType.path tp) cs tm =
      Except.ok (Frag.prefixed fi Frag.alphanumeric10, tm)
    ∧ generate_value "str" cs = Frag.rngGen := by
  have h1 : (("String" : String) == "Option") = false := by decide
  have h2 : (("String" : String) == "Vec") = false := by decide
  have h3 : (("String" : String) == "String") = true := by decide
  have h4 : (("str" : String) == "String") = false := by decide
  have h5 : (("str" : String) == "Uuid") = false := by decide
  constructor
  · simp [generated_values, extract_type, extract_type_path, hseg, hp, hc,
      generate_value, hfv, hdef, h1, h2, h3]
  · simp [generate_value, hfv, hdef, h4, h5]

theorem C3_string_only_witness :
    (generated_values "T" (some "name")
        (RsType.path ⟨"String", ["String"]⟩) [] [] =
      Except.ok (Frag.prefixed (some "name") Frag.alphanumeric10, [])
    ∧ generate_value "str" [] = Frag.rngGen) :=
  C3_string_only "T" (some "name") ⟨"String", ["String"]⟩ [] []
    rfl rfl rfl rfl rfl

/-- Claim C4: for every field of Option shape without Panic or Custom whose
inner-type text extraction succeeds, the resolver emits: the empty-optional
fragment when AlwaysNone is present (taking precedence over AlwaysSome and
every other directive); else the present-optional fragment wrapping the
resolved inner value when AlwaysSome is present; else the fragment making a
runtime binary random choice between exactly those two outcomes. -/
theorem C4_option_directives (ti : String) (fi : Option String)
    (tp : RsTypePath) (cs : List Customize) (tm : TraitMethods)
    (inner : String)
    (hseg : tp.segments.getLast? = some "Option")
    (hp : has_customize cs Customize.Panic = false)
    (hc : has_customize cs Customize.Custom = false)
    (hin : option_inner tp.rendered = some inner) :
    generated_values ti fi (RsType.path tp) cs tm =
      Except.ok (Frag.prefixed fi
        (if has_customize cs Customize.AlwaysNone then Frag.noneFrag
         else if has_customize cs Customize.AlwaysSome then
           Frag.someFrag (generate_value inner cs)
         else Frag.randomOption (generate_value inner cs)), tm) := by
  have h1 : (("Option" : String) == "Option") = true := by decide
  simp only [generated_values, extract_type, extract_type_path, hseg, hp, hc,
    hin, h1]
  by_cases hn : has_customize cs Customize.AlwaysNone = true
  · simp [hn]
  · by_cases hs : has_customize cs Customize.AlwaysSome = true
    · simp [hn, hs]
    · simp [hn, hs]

theorem C4_option_directives_witness :
    generated_values "T" (some "x")
      (RsType.path ⟨"Option<String>", ["Option"]⟩)
      [Customize.AlwaysNone, Customize.AlwaysSome] [] =
      Except.ok (Frag.prefixed (some "x")
        (if has_customize [Customize.AlwaysNone, Customize.AlwaysSome]
            Customize.AlwaysNone then Frag.noneFrag
         else if has_customize [Customize.AlwaysNone, Customize.AlwaysSome]
            Customize.AlwaysSome then
           Frag.someFrag (generate_value "String"
             [Customize.AlwaysNone, Customize.AlwaysSome])
         else Frag.randomOption (generate_value "String"
             [Customize.AlwaysNone, Customize.AlwaysSome])), []) :=
  C4_option_directives "T" (some "x") ⟨"Option<String>", ["Option"]⟩
    [Customize.AlwaysNone, Customize.AlwaysSome] [] "String"
    rfl rfl rfl (by decide)

end RandDerive

namespace RandDerive

/-- Claim C5: for every field with the Custom directive (and without Panic),
the emitted fragment is the qualified call
`<OwningType as TestDataProviderForOwningType>::<method>(rng)`, where the
method name is `generate_<field_name>` for a named field and
`generate_random_<lowercased head-type name>` for a positional field, and
that method name is registered in the owning type's trait-methods map with
the signature returning the field's type (its rendered form also takes the
source of randomness, fixed by the template). -/
theorem C5_custom_call (ti : String) (fi : Option String) (tp : RsTypePath)
    (cs : List Customize) (tm : TraitMethods) (hd mname : String)
    (hseg : tp.segments.getLast? = some hd)
    (hp : has_customize cs Customize.Panic = false)
    (hc : has_customize cs Customize.Custom = true)
    (hm : mname = generate_ty_name fi hd) :
    generated_values ti fi (RsType.path tp) cs tm =
      Except.ok (Frag.prefixed fi (Frag.customCall ti (trait_name ti) mname),
        tmInsert tm mname (MethodSig.mk mname (RsType.path tp)))
    ∧ tmLookup (tmInsert tm mname (MethodSig.mk mname (RsType.path tp)))
        mname = some (MethodSig.mk mname (RsType.path tp))
    ∧ trait_name ti = "TestDataProvider" ++ "For" ++ ti
    ∧ generate_ty_name none hd = "generate_random_" ++ strToLower hd
    ∧ (∀ f, generate_ty_name (some f) hd = "generate_" ++ f) := by
  subst hm
  refine ⟨?_, tmLookup_tmInsert_self tm (generate_ty_name fi hd)
    (MethodSig.mk (generate_ty_name fi hd) (RsType.path tp)), rfl, rfl,
    fun f => rfl⟩
  simp [generated_values, extract_type, extract_type_path, hseg, hp, hc,
    add_to_trait_methods]

theorem C5_custom_call_witness :
    (generated_values "OwningType" none (RsType.path ⟨"Count", ["Count"]⟩)
        [Customize.Custom] [] =
      Except.ok (Frag.prefixed none
        (Frag.customCall "OwningType" (trait_name "OwningType")
          "generate_random_count"),
        tmInsert [] "generate_random_count"
          (MethodSig.mk "generate_random_count"
            (RsType.path ⟨"Count", ["Count"]⟩)))
    ∧ tmLookup (tmInsert [] "generate_random_count"
        (MethodSig.mk "generate_random_count"
          (RsType.path ⟨"Count", ["Count"]⟩))) "generate_random_count" =
        some (MethodSig.mk "generate_random_count"
          (RsType.path ⟨"Count", ["Count"]⟩))
    ∧ trait_name "OwningType" = "TestDataProvider" ++ "For" ++ "OwningType"
    ∧ generate_ty_name none "Count" = "generate_random_" ++ strToLower "Count"
    ∧ (∀ f, generate_ty_name (some f) "Count" = "generate_" ++ f)) :=
  C5_custom_call "OwningType" none ⟨"Count", ["Count"]⟩ [Customize.Custom] []
    "Count" "generate_random_count" rfl rfl rfl (by decide)

/-- Claim C6: registration of capability methods is idempotent — when the
derived method names of two Custom registrations coincide, the second
registration replaces rather than duplicates, leaving exactly one entry
under that name in the trait-methods map (given the HashMap invariant that
the map held at most one entry under that key beforehand). -/
theorem C6_idempotent_registration (ti : String) (fi1 fi2 : Option String)
    (ty1 ty2 : RsType) (hd1 hd2 : String) (tm : TraitMethods)
    (h0 : tmCountKey tm (generate_ty_name fi1 hd1) ≤ 1)
    (heq : generate_ty_name fi2 hd2 = generate_ty_name fi1 hd1) :
    tmCountKey
      (add_to_trait_methods ti fi2 ty2 hd2
        (add_to_trait_methods ti fi1 ty1 hd1 tm).2).2
      (generate_ty_name fi1 hd1) = 1 := by
  simp only [add_to_trait_methods, heq]
  exact tmCountKey_tmInsert_self _ _ _
    (Nat.le_of_eq (tmCountKey_tmInsert_self tm _ _ h0))

theorem C6_idempotent_registration_witness :
    tmCountKey
      (add_to_trait_methods "T" none (RsType.path ⟨"Count", ["Count"]⟩)
        "Count"
        (add_to_trait_methods "T" none (RsType.path ⟨"Count", ["Count"]⟩)
          "Count" []).2).2
      (generate_ty_name none "Count") = 1 :=
  C6_idempotent_registration "T" none none
    (RsType.path ⟨"Count", ["Count"]⟩) (RsType.path ⟨"Count", ["Count"]⟩)
    "Count" "Count" [] (by decide) rfl

/-- Helper for C7: the zero-value fragment is emitted exactly when no
FixedValue literal is present and the Default directive is. -/
theorem generate_value_default_iff (ts : String) (cs : List Customize) :
    generate_value ts cs = Frag.defaultDefault ↔
      (fixed_value cs = none ∧ has_customize cs Customize.Default = true) := by
  unfold generate_value
  cases h : fixed_value cs with
  | some v =>
    simp only [h]
    constructor
    · intro hcon
      exfalso
      by_cases h1 : (ts == "String") = true
      · simp [h1] at hcon
      · by_cases h2 : (ts == "str") = true
        · simp [h1, h2] at hcon
        · simp [h1, h2] at hcon
    · intro hcon
      exact absurd hcon.1 (by simp)
  | none =>
    simp only [h, true_and]
    by_cases hd : has_customize cs Customize.Default = true
    · simp [hd]
    · simp only [Bool.not_eq_true] at hd
      simp only [hd]
      constructor
      · intro hcon
        exfalso
        by_cases h1 : (ts == "String") = true
        · simp [h1] at hcon
        · by_cases h2 : (ts == "Uuid") = true
          · simp [h1, h2] at hcon
          · simp [h1, h2] at hcon
      · intro hcon
        cases hcon

/-- Claim C7: in the scalar strategy, FixedValue takes precedence over
Default — when a fixed literal is present (in particular when Default is
also present) the fixed literal is rendered (owned textual for `String`,
borrowed textual for `str`, bare literal otherwise), and the zero-value
fragment `Default::default()` is emitted exactly when Default is present
without FixedValue. -/
theorem C7_fixed_over_default (ty_str : String) (cs : List Customize)
    (v : String) (hfv : fixed_value cs = some v)
    (hdef : has_customize cs Customize.Default = true) :
    generate_value ty_str cs =
      (if ty_str == "String" then Frag.stringifyToString v
       else if ty_str == "str" then Frag.stringifyLit v
       else Frag.litFrag v)
    ∧ ∀ (ts2 : String) (cs2 : List Customize),
        generate_value ts2 cs2 = Frag.defaultDefault ↔
          (fixed_value cs2 = none ∧
            has_customize cs2 Customize.Default = true) := by
  refine ⟨?_, generate_value_default_iff⟩
  simp [generate_value, hfv]

theorem C7_fixed_over_default_witness :
    (generate_value "String" [Customize.Default, Customize.FixedValue "abc"] =
      (if ("String" : String) == "String" then Frag.stringifyToString "abc"
       else if ("String" : String) == "str" then Frag.stringifyLit "abc"
       else Frag.litFrag "abc")
    ∧ ∀ (ts2 : String) (cs2 : List Customize),
        generate_value ts2 cs2 = Frag.defaultDefault ↔
          (fixed_value cs2 = none ∧
            has_customize cs2 Customize.Default = true)) :=
  C7_fixed_over_default "String" [Customize.Default, Customize.FixedValue "abc"]
    "abc" rfl rfl

end RandDerive

namespace RandDerive

/-- Helper for C8: any field whose type is an unsupported form aborts the
traversal of the whole field list, wherever in the list it occurs. -/
theorem fields_error_of_other (ti : String) (l : List NamedField)
    (f d : String) (cs : List Customize)
    (hmem : (f, RsType.other d, cs) ∈ l) :
    ∀ tm, ∃ e,
      generated_values_for_named_fields ti l tm = Except.error e := by
  induction l with
  | nil => cases hmem
  | cons hdf rest ih =>
    obtain ⟨g, gty, gcs⟩ := hdf
    intro tm
    cases hres : generated_values ti (some g) gty gcs tm with
    | error e =>
      exact ⟨e, by simp [generated_values_for_named_fields, hres]⟩
    | ok pr =>
      obtain ⟨frag, m1⟩ := pr
      rcases List.mem_cons.mp hmem with heq | hmem2
      · exfalso
        simp only [Prod.mk.injEq] at heq
        obtain ⟨h1, h2, h3⟩ := heq
        subst h1
        subst h2
        subst h3
        simp [generated_values, extract_type] at hres
      · obtain ⟨e, he⟩ := ih hmem2 m1
        exact ⟨e, by simp [generated_values_for_named_fields, hres, he]⟩

/-- Claim C8 counterexample: a doubly referenced named-path type — which is
neither a named-path type nor a reference to one — does not fail
classification: `extract_type` strips both reference levels and classifies
the underlying path, refuting the one-level dereferencing claim. -/
theorem C8_cex :
    extract_type (RsType.reference (RsType.reference
      (RsType.path ⟨"String", ["String"]⟩))) =
      Except.ok ("String", "String") :=
  rfl

/-- Claim C8 (amended): the type classifier dereferences reference types
transparently through any number of levels before classification; any field
type that is not, after stripping references, a named-path type fails
generation at compile time with the descriptive unsupported-type error, and
that failure is fatal: it aborts the traversal of the entire owning type's
field list. -/
theorem C8_ref_transparent :
    (∀ t : RsType, extract_type (RsType.reference t) = extract_type t)
    ∧ (∀ d, extract_type (RsType.other d) =
        Except.error (GenError.unsupportedType d))
    ∧ (∀ ti (l : List NamedField) tm,
        (∃ f d cs, (f, RsType.other d, cs) ∈ l) →
        ∃ e, generated_values_for_named_fields ti l tm = Except.error e) :=
  ⟨fun _ => rfl, fun _ => rfl,
   fun ti l tm h => by
     obtain ⟨f, d, cs, hmem⟩ := h
     exact fields_error_of_other ti l f d cs hmem tm⟩

theorem C8_ref_transparent_witness :
    ∃ e, generated_values_for_named_fields "T"
      [("ok", RsType.path ⟨"String", ["String"]⟩, []),
       ("bad", RsType.other "tuple type", [Customize.Panic])] [] =
      Except.error e :=
  C8_ref_transparent.2.2 "T"
    [("ok", RsType.path ⟨"String", ["String"]⟩, []),
     ("bad", RsType.other "tuple type", [Customize.Panic])] []
    ⟨"bad", "tuple type", [Customize.Panic], by simp⟩

/-- Claim C9 counterexample: a wrapper with multiple type arguments where
exactly one is expected — the field type `Option<A,B>` — does not abort
generation: the resolver succeeds, feeding the comma-joined argument text
`A,B` to the scalar strategy, which silently degrades to the opaque fallback
inside the runtime binary choice. -/
theorem C9_cex :
    generated_values "T" (some "x")
      (RsType.path ⟨"Option<A,B>", ["Option"]⟩) [] [] =
      Except.ok (Frag.prefixed (some "x")
        (Frag.randomOption Frag.rngGen), []) :=
  rfl

/-- Claim C9 (amended): the engine has no dedicated unclassifiable-shape
check — a wrapper with multiple type arguments silently degrades (see the
counterexample) rather than aborting; the only shape-related compile-time
abort is the Option inner-text extraction failing (a head type named
`Option` whose rendered form has no `Option<` substring, no `>` character,
or a reversed slice range), which aborts generation of the field. -/
theorem C9_unsupported_shape (ti : String) (fi : Option String)
    (tp : RsTypePath) (cs : List Customize) (tm : TraitMethods)
    (hseg : tp.segments.getLast? = some "Option")
    (hp : has_customize cs Customize.Panic = false)
    (hc : has_customize cs Customize.Custom = false)
    (hfail : option_inner tp.rendered = none) :
    generated_values ti fi (RsType.path tp) cs tm =
      Except.error (GenError.unwrapFailure "Option inner extraction") := by
  have h1 : (("Option" : String) == "Option") = true := by decide
  simp [generated_values, extract_type, extract_type_path, hseg, hp, hc,
    hfail, h1]

theorem C9_unsupported_shape_witness :
    generated_values "T" (some "x") (RsType.path ⟨"Option", ["Option"]⟩)
      [] [] =
      Except.error (GenError.unwrapFailure "Option inner extraction") :=
  C9_unsupported_shape "T" (some "x") ⟨"Option", ["Option"]⟩ [] []
    rfl rfl rfl rfl

/-- Claim C10: type classification runs before any directive is consulted —
whenever `extract_type` fails on a field's declared type, `generated_values`
propagates exactly that failure for every directive list, so neither Panic
nor Custom (nor any other directive) can suppress it. -/
theorem C10_classification_first (ti : String) (fi : Option String)
    (t : RsType) (e : GenError) (cs : List Customize) (tm : TraitMethods)
    (herr : extract_type t = Except.error e) :
    generated_values ti fi t cs tm = Except.error e := by
  simp [generated_values, herr]

theorem C10_classification_first_witness :
    generated_values "T" none (RsType.other "tuple") [Customize.Panic] [] =
      Except.error (GenError.unsupportedType "tuple") :=
  C10_classification_first "T" none (RsType.other "tuple")
    (GenError.unsupportedType "tuple") [Customize.Panic] [] rfl

end RandDerive
